import Mathlib

/-
Shallow embedding of src/src/platform_impl/linux/wayland/window/state.rs.

The embedding keeps the names of the Rust source where Lean allows it.
External protocol objects (surface, pointers, text inputs, subcompositor)
are replaced by an explicit log of the protocol requests the code issues,
and by booleans recording whether an optional collaborator is available.
Floating point scale handling is elided: sizes are kept logical, and the
initial user-provided size is stored already converted to logical units
(the code converts with to_logical at scale factor time, which the claims
below never depend on).
-/

namespace WaylandWindow

/-- Logical, scale independent size of a surface, src LogicalSize of u32. -/
structure LogicalSize where
  width : Nat
  height : Nat
deriving DecidableEq

/-- Window state bitflags carried by an xdg configure event
(csd_frame WindowState bitflags). Each bit is one boolean field. -/
structure XdgWindowState where
  maximized : Bool
  fullscreen : Bool
  resizing : Bool
  activated : Bool
  tiledLeft : Bool
  tiledRight : Bool
  tiledTop : Bool
  tiledBottom : Bool
  suspended : Bool
deriving DecidableEq

/-- Bitwise symmetric difference of two flag sets. -/
def XdgWindowState.symmetricDifference (a b : XdgWindowState) : XdgWindowState where
  maximized := xor a.maximized b.maximized
  fullscreen := xor a.fullscreen b.fullscreen
  resizing := xor a.resizing b.resizing
  activated := xor a.activated b.activated
  tiledLeft := xor a.tiledLeft b.tiledLeft
  tiledRight := xor a.tiledRight b.tiledRight
  tiledTop := xor a.tiledTop b.tiledTop
  tiledBottom := xor a.tiledBottom b.tiledBottom
  suspended := xor a.suspended b.suspended

/-- Bitwise difference with the mask ACTIVATED union SUSPENDED: those two bits
are cleared, every other bit is kept. -/
def XdgWindowState.differenceActivatedSuspended (a : XdgWindowState) : XdgWindowState :=
  { a with activated := false, suspended := false }

/-- Whether no flag at all is set, bitflags is_empty. -/
def XdgWindowState.isEmpty (a : XdgWindowState) : Bool :=
  !(a.maximized || a.fullscreen || a.resizing || a.activated || a.tiledLeft
    || a.tiledRight || a.tiledTop || a.tiledBottom || a.suspended)

/-- Decoration mode of an xdg toplevel. -/
inductive DecorationMode where
  | Client
  | Server
deriving DecidableEq

/-- Model of NonZeroU32 construction: zero maps to none. -/
def nonZeroU32 (n : Nat) : Option Nat :=
  if n = 0 then none else some n

/-- The xdg toplevel configure event. The new_size components model
Option of NonZeroU32: a present value is positive in the protocol. -/
structure WindowConfigure where
  new_size : Option Nat × Option Nat
  state : XdgWindowState
  decoration_mode : DecorationMode
  suggested_bounds : Option (Nat × Nat)
deriving DecidableEq

def WindowConfigure.is_maximized (c : WindowConfigure) : Bool := c.state.maximized

def WindowConfigure.is_fullscreen (c : WindowConfigure) : Bool := c.state.fullscreen

def WindowConfigure.is_tiled (c : WindowConfigure) : Bool :=
  c.state.tiledLeft || c.state.tiledRight || c.state.tiledTop || c.state.tiledBottom

/-- The wlr layer shell configure event; both axes are plain u32 and may be 0. -/
structure LayerSurfaceConfigure where
  new_size : Nat × Nat
deriving DecidableEq

/-- Model of the client side decorations frame (the external DecorationsFrame
implementation). The frame reports its current borders per axis; the
subtract_borders and add_borders capabilities remove and add those borders,
with a subtraction reaching zero reported as none (NonZeroU32 result). -/
structure WinitFrame where
  borderWidth : Nat
  borderHeight : Nat
  location : Int × Int
  hidden : Bool
  wstate : XdgWindowState
  title : List Char
deriving DecidableEq

def WinitFrame.subtract_borders (f : WinitFrame) (width height : Nat) :
    Option Nat × Option Nat :=
  (nonZeroU32 (width - f.borderWidth), nonZeroU32 (height - f.borderHeight))

def WinitFrame.add_borders (f : WinitFrame) (width height : Nat) : Nat × Nat :=
  (width + f.borderWidth, height + f.borderHeight)

/-- The state of the frame callback. -/
inductive FrameCallbackState where
  | None
  | Requested
  | Received
deriving DecidableEq

/-- Cursor grab modes. -/
inductive CursorGrabMode where
  | None
  | Confined
  | Locked
deriving DecidableEq

/-- The state of the cursor grabs. -/
structure GrabState where
  user_grab_mode : CursorGrabMode
  current_grab_mode : CursorGrabMode
deriving DecidableEq

def GrabState.new : GrabState :=
  { user_grab_mode := CursorGrabMode.None, current_grab_mode := CursorGrabMode.None }

/-- Errors surfaced to the caller. -/
inductive ExternalError where
  | NotSupported
  | Os (message : String)
deriving DecidableEq

/-- Window events pushed to the event sink; only the one the verified
operations emit is modelled. -/
inductive WindowEvent where
  | Occluded (occluded : Bool)
deriving DecidableEq

/-- Outbound protocol requests issued by the verified operations, in order. -/
inductive ProtocolRequest where
  | frameResize (width height : Nat)
  | setOpaqueRegion (solid : Bool)
  | setWindowGeometry (x y : Int) (width height : Nat)
  | setSize (width height : Nat)
  | setViewportDestination (width height : Nat)
  | surfaceFrameRequest
  | unconfinePointer (pointer : Nat)
  | unlockPointer (pointer : Nat)
  | lockPointer (pointer : Nat)
  | confinePointer (pointer : Nat)
  | setLockedCursorPosition (pointer : Nat) (x y : Rat)
  | setMinSize (size : Option LogicalSize)
  | setMaxSize (size : Option LogicalSize)
  | frameSetTitle (title : List Char)
  | windowSetTitle (title : List Char)
deriving DecidableEq

/-- Minimum window inner size, src MIN_WINDOW_SIZE. -/
def MIN_WINDOW_SIZE : LogicalSize := { width := 2, height := 1 }

/-- The xdg arm of ShellSpecificState. -/
structure XdgState where
  last_configure : Option WindowConfigure
  resizable : Bool
  frame : Option WinitFrame
  csd_fails : Bool
  decorate : Bool
  min_inner_size : LogicalSize
  max_inner_size : Option LogicalSize
  stateless_size : LogicalSize
  frame_callback_state : FrameCallbackState
  has_pending_move : Option Nat
deriving DecidableEq

/-- State that differs between the xdg shell and the wlr layer shell. -/
inductive ShellSpecificState where
  | Xdg (xdg : XdgState)
  | WlrLayer (last_configure : Option LayerSurfaceConfigure)
deriving DecidableEq

/-- The state of the window. Pointers are weak references: a none entry is a
dead weak reference that upgrade skips. Optional collaborators are recorded
as booleans for availability. -/
structure WindowState where
  pointers : List (Option Nat)
  cursor_visible : Bool
  pointer_constraints : Bool
  shell_specific : ShellSpecificState
  title : List Char
  transparent : Bool
  cursor_grab_mode : GrabState
  size : LogicalSize
  initial_size : Option LogicalSize
  viewport : Bool
deriving DecidableEq

/-- Live pointers: the weak references that still upgrade. -/
def WindowState.livePointers (s : WindowState) : List Nat :=
  s.pointers.filterMap id

/-- Projection of the xdg arm of the shell specific state, when present. -/
def WindowState.xdgState? (s : WindowState) : Option XdgState :=
  match s.shell_specific with
  | ShellSpecificState.Xdg xdg => some xdg
  | ShellSpecificState.WlrLayer _ => none

/-- Whether none of the maximized, fullscreen and tiled flags is set. -/
def isStateless (configure : WindowConfigure) : Bool :=
  !(configure.is_maximized || configure.is_fullscreen || configure.is_tiled)

/-- Resize the window to the new inner size, src WindowState resize. Returns
the updated state together with the protocol requests it issues. -/
def WindowState.resize (s : WindowState) (inner_size : LogicalSize) :
    WindowState × List ProtocolRequest :=
  let s := { s with size := inner_size }
  let s :=
    match s.shell_specific with
    | ShellSpecificState.Xdg xdg =>
      if xdg.last_configure.map isStateless = some true then
        { s with shell_specific :=
            ShellSpecificState.Xdg { xdg with stateless_size := inner_size } }
      else s
    | ShellSpecificState.WlrLayer _ => s
  let frameInfo : (Int × Int) × LogicalSize × List ProtocolRequest :=
    match s.shell_specific with
    | ShellSpecificState.Xdg xdg =>
      match xdg.frame with
      | some frame =>
        let reqs :=
          if frame.hidden = false then
            [ProtocolRequest.frameResize s.size.width s.size.height]
          else []
        let outer := frame.add_borders s.size.width s.size.height
        (frame.location, { width := outer.1, height := outer.2 }, reqs)
      | none => ((0, 0), s.size, [])
    | ShellSpecificState.WlrLayer _ => ((0, 0), s.size, [])
  let outer := frameInfo.2.1
  let geometryReq :=
    match s.shell_specific with
    | ShellSpecificState.Xdg _ =>
      ProtocolRequest.setWindowGeometry frameInfo.1.1 frameInfo.1.2 outer.width outer.height
    | ShellSpecificState.WlrLayer _ => ProtocolRequest.setSize outer.width outer.height
  let viewportReqs :=
    if s.viewport then
      [ProtocolRequest.setViewportDestination s.size.width s.size.height]
    else []
  (s, frameInfo.2.2 ++ [ProtocolRequest.setOpaqueRegion (!s.transparent)]
    ++ [geometryReq] ++ viewportReqs)

/-- The condition under which configure_xdg attempts to create the client side
decorations frame: subcompositor available, client decoration mode requested,
no frame yet, and no sticky earlier failure. -/
def frameCreationAttempt (xdg : XdgState) (configure : WindowConfigure)
    (subcompositor : Bool) : Bool :=
  subcompositor && decide (configure.decoration_mode = DecorationMode.Client)
    && xdg.frame.isNone && !xdg.csd_fails

/-- The frame creation and dropping step of configure_xdg. The frame_new
argument is the outcome of WinitFrame new: some created frame, or none on
creation failure. On success the code sets the title and hides the frame when
decorate is off; on failure it sets the sticky csd_fails flag. When the
decoration mode is server side, the frame is dropped. -/
def xdgFrameStep (xdg : XdgState) (title : List Char) (configure : WindowConfigure)
    (subcompositor : Bool) (frame_new : Option WinitFrame) : XdgState :=
  if frameCreationAttempt xdg configure subcompositor = true then
    match frame_new with
    | some created =>
      { xdg with frame := some { created with title := title, hidden := !xdg.decorate } }
    | none => { xdg with csd_fails := true }
  else if configure.decoration_mode = DecorationMode.Server then
    { xdg with frame := none }
  else xdg

/-- The Occluded event emission of configure_xdg: pushed exactly when the
suspended flag differs from the one of the previous configure, an absent
previous configure counting as not suspended. -/
def xdgOccludedEvents (xdg : XdgState) (configure : WindowConfigure) : List WindowEvent :=
  let occluded := configure.state.suspended
  if ((xdg.last_configure.map fun c => c.state.suspended).getD false) ≠ occluded then
    [WindowEvent.Occluded occluded]
  else []

/-- The proposed size step of configure_xdg: updates the frame window state,
and computes the proposed inner size together with the constrain flag. -/
def xdgNewSize (xdg : XdgState) (currentSize : LogicalSize)
    (configure : WindowConfigure) : XdgState × LogicalSize × Bool :=
  match xdg.frame with
  | some frame =>
    let frame := { frame with wstate := configure.state }
    let xdg := { xdg with frame := some frame }
    match configure.new_size with
    | (some width, some height) =>
      let wh := frame.subtract_borders width height
      (xdg, { width := wh.1.getD 1, height := wh.2.getD 1 }, false)
    | _ =>
      if isStateless configure = true then (xdg, xdg.stateless_size, true)
      else (xdg, currentSize, true)
  | none =>
    match configure.new_size with
    | (some width, some height) => (xdg, { width := width, height := height }, false)
    | _ =>
      if isStateless configure = true then (xdg, xdg.stateless_size, true)
      else (xdg, currentSize, true)

/-- Compute the bounds for the inner size of the surface,
src inner_size_bounds. -/
def innerSizeBounds (frame : Option WinitFrame) (configure : WindowConfigure) :
    Option Nat × Option Nat :=
  let configure_bounds :=
    match configure.suggested_bounds with
    | some (width, height) => (nonZeroU32 width, nonZeroU32 height)
    | none => (none, none)
  match frame with
  | some frame =>
    let wh := frame.subtract_borders (configure_bounds.1.getD 1) (configure_bounds.2.getD 1)
    ((match configure_bounds.1 with | some _ => wh.1 | none => none),
     (match configure_bounds.2 with | some _ => wh.2 | none => none))
  | none => configure_bounds

/-- Apply the configure bounds, only when the compositor let the client pick
the size (the constrain flag). -/
def xdgConstrainSize (frame : Option WinitFrame) (configure : WindowConfigure)
    (new_size : LogicalSize) (constrain : Bool) : LogicalSize :=
  if constrain = true then
    let bounds := innerSizeBounds frame configure
    { width := (bounds.1.map fun b => min new_size.width b).getD new_size.width,
      height := (bounds.2.map fun b => min new_size.height b).getD new_size.height }
  else new_size

/-- Whether the state flag change between the previous and the new configure
forces a resize: the symmetric difference outside activated and suspended is
not empty, an absent previous configure always forcing a resize. -/
def xdgStateChangeRequiresResize (old_state : Option XdgWindowState)
    (new_state : XdgWindowState) : Bool :=
  (old_state.map fun o =>
    !((o.symmetricDifference new_state).differenceActivatedSuspended.isEmpty)).getD true

/-- The result of configure_xdg: the updated window state, the events pushed
to the event sink, the protocol requests issued, whether the decoration frame
creation was attempted, and the returned needs-redraw boolean. -/
structure XdgConfigureResult where
  state : WindowState
  events : List WindowEvent
  requests : List ProtocolRequest
  frameCreationAttempted : Bool
  redraw : Bool
deriving DecidableEq

/-- Handle an xdg toplevel configure event, src configure_xdg. -/
def WindowState.configure_xdg (s : WindowState) (configure : WindowConfigure)
    (subcompositor : Bool) (frame_new : Option WinitFrame) : XdgConfigureResult :=
  match s.shell_specific with
  | ShellSpecificState.WlrLayer _ =>
    { state := s, events := [], requests := [], frameCreationAttempted := false,
      redraw := false }
  | ShellSpecificState.Xdg xdg =>
    let seeded : WindowState × XdgState :=
      match s.initial_size with
      | some initial_size =>
        ({ s with size := initial_size, initial_size := none },
          { xdg with stateless_size := initial_size })
      | none => (s, xdg)
    let s1 := seeded.1
    let attempted := frameCreationAttempt seeded.2 configure subcompositor
    let xdg2 := xdgFrameStep seeded.2 s1.title configure subcompositor frame_new
    let events := xdgOccludedEvents xdg2 configure
    let step := xdgNewSize xdg2 s1.size configure
    let new_size := xdgConstrainSize step.1.frame configure step.2.1 step.2.2
    let requiresResize :=
      xdgStateChangeRequiresResize (step.1.last_configure.map fun c => c.state)
        configure.state
    let s2 := { s1 with shell_specific :=
      ShellSpecificState.Xdg { step.1 with last_configure := some configure } }
    if requiresResize = true ∨ new_size ≠ s2.size then
      let rr := s2.resize new_size
      { state := rr.1, events := events, requests := rr.2,
        frameCreationAttempted := attempted, redraw := true }
    else
      { state := s2, events := events, requests := [],
        frameCreationAttempted := attempted, redraw := false }

/-- Handle a wlr layer shell configure event, src configure_layer. A zero on
an axis keeps the current value of that axis. -/
def WindowState.configure_layer (s : WindowState) (configure : LayerSurfaceConfigure) :
    WindowState × List ProtocolRequest × Bool :=
  match s.shell_specific with
  | ShellSpecificState.Xdg _ => (s, [], true)
  | ShellSpecificState.WlrLayer _ =>
    let new_size : LogicalSize :=
      match configure.new_size with
      | (0, 0) => s.size
      | (0, height) => { width := s.size.width, height := height }
      | (width, 0) => { width := width, height := s.size.height }
      | (width, height) => { width := width, height := height }
    let s := { s with shell_specific := ShellSpecificState.WlrLayer (some configure) }
    let rr := s.resize new_size
    (rr.1, rr.2, true)

/-- The frame callback was received, src frame_callback_received. -/
def WindowState.frame_callback_received (s : WindowState) : WindowState :=
  match s.shell_specific with
  | ShellSpecificState.Xdg xdg =>
    { s with shell_specific :=
        ShellSpecificState.Xdg { xdg with frame_callback_state := FrameCallbackState.Received } }
  | ShellSpecificState.WlrLayer _ => s

/-- Reset the frame callback state, src frame_callback_reset. -/
def WindowState.frame_callback_reset (s : WindowState) : WindowState :=
  match s.shell_specific with
  | ShellSpecificState.Xdg xdg =>
    { s with shell_specific :=
        ShellSpecificState.Xdg { xdg with frame_callback_state := FrameCallbackState.None } }
  | ShellSpecificState.WlrLayer _ => s

/-- Request a frame callback if none is in flight for this window,
src request_frame_callback. -/
def WindowState.request_frame_callback (s : WindowState) :
    WindowState × List ProtocolRequest :=
  match s.shell_specific with
  | ShellSpecificState.Xdg xdg =>
    match xdg.frame_callback_state with
    | FrameCallbackState.None | FrameCallbackState.Received =>
      let xdg := { xdg with frame_callback_state := FrameCallbackState.Requested }
      ({ s with shell_specific := ShellSpecificState.Xdg xdg },
        [ProtocolRequest.surfaceFrameRequest])
    | FrameCallbackState.Requested => (s, [])
  | ShellSpecificState.WlrLayer _ => (s, [])

/-- The release requests issued for the previously applied grab mode, one per
live pointer. -/
def grabReleaseRequests (old_mode : CursorGrabMode) (pointers : List Nat) :
    List ProtocolRequest :=
  match old_mode with
  | CursorGrabMode.None => []
  | CursorGrabMode.Confined => pointers.map ProtocolRequest.unconfinePointer
  | CursorGrabMode.Locked => pointers.map ProtocolRequest.unlockPointer

/-- The constraint requests issued for the newly applied grab mode, one per
live pointer. -/
def grabApplyRequests (mode : CursorGrabMode) (pointers : List Nat) :
    List ProtocolRequest :=
  match mode with
  | CursorGrabMode.Locked => pointers.map ProtocolRequest.lockPointer
  | CursorGrabMode.Confined => pointers.map ProtocolRequest.confinePointer
  | CursorGrabMode.None => []

/-- Set the grabbing state on the surface, src set_cursor_grab_inner. -/
def WindowState.set_cursor_grab_inner (s : WindowState) (mode : CursorGrabMode) :
    WindowState × List ProtocolRequest × Except ExternalError Unit :=
  if s.pointer_constraints = true then
    let old_mode := s.cursor_grab_mode.current_grab_mode
    let s := { s with cursor_grab_mode := { s.cursor_grab_mode with current_grab_mode := mode } }
    (s, grabReleaseRequests old_mode s.livePointers ++ grabApplyRequests mode s.livePointers,
      Except.ok ())
  else if mode = CursorGrabMode.None then (s, [], Except.ok ())
  else (s, [], Except.error ExternalError.NotSupported)

/-- Set the cursor grabbing state on the top level, src set_cursor_grab. -/
def WindowState.set_cursor_grab (s : WindowState) (mode : CursorGrabMode) :
    WindowState × List ProtocolRequest × Except ExternalError Unit :=
  let s := { s with cursor_grab_mode := { s.cursor_grab_mode with user_grab_mode := mode } }
  s.set_cursor_grab_inner mode

/-- The message of the error returned when setting the cursor position while
the cursor is not locked. -/
def invalidCursorPositionMessage : String :=
  "cursor position can be set only for locked cursor."

/-- Set the position of the cursor, src set_cursor_position. -/
def WindowState.set_cursor_position (s : WindowState) (x y : Rat) :
    List ProtocolRequest × Except ExternalError Unit :=
  if s.pointer_constraints = false then
    ([], Except.error ExternalError.NotSupported)
  else if s.cursor_grab_mode.current_grab_mode ≠ CursorGrabMode.Locked then
    ([], Except.error (ExternalError.Os invalidCursorPositionMessage))
  else
    (s.livePointers.map (fun p => ProtocolRequest.setLockedCursorPosition p x y),
      Except.ok ())

/-- Total utf8 byte length of a character list. -/
def utf8Len : List Char → Nat
  | [] => 0
  | c :: cs => c.utf8Size + utf8Len cs

/-- Whether the byte index is a character boundary of the utf8 encoding,
model of str is_char_boundary on the character list view. -/
def isCharBoundary : List Char → Nat → Bool
  | _, 0 => true
  | [], _ + 1 => false
  | c :: cs, i + 1 =>
    if c.utf8Size ≤ i + 1 then isCharBoundary cs (i + 1 - c.utf8Size) else false

/-- The while loop of set_title: decrement the byte index until it is a
character boundary. -/
def findCharBoundaryDown (cs : List Char) : Nat → Nat
  | 0 => 0
  | n + 1 => if isCharBoundary cs (n + 1) then n + 1 else findCharBoundaryDown cs n

/-- Keep the longest prefix of characters fitting in the byte budget, model of
String truncate at a byte index. -/
def truncateBytes : List Char → Nat → List Char
  | [], _ => []
  | c :: cs, n => if c.utf8Size ≤ n then c :: truncateBytes cs (n - c.utf8Size) else []

/-- The title truncation of set_title: over 1024 bytes, cut at the greatest
character boundary at most 1024. -/
def truncateTitle (title : List Char) : List Char :=
  if 1024 < utf8Len title then
    truncateBytes title (findCharBoundaryDown title 1024)
  else title

/-- Set the window title to a new value, src set_title. -/
def WindowState.set_title (s : WindowState) (title : List Char) :
    WindowState × List ProtocolRequest :=
  let title := truncateTitle title
  match s.shell_specific with
  | ShellSpecificState.Xdg xdg =>
    let frameReqs :=
      match xdg.frame with
      | some _ => [ProtocolRequest.frameSetTitle title]
      | none => []
    let xdg :=
      match xdg.frame with
      | some f => { xdg with frame := some { f with title := title } }
      | none => xdg
    ({ s with title := title, shell_specific := ShellSpecificState.Xdg xdg },
      frameReqs ++ [ProtocolRequest.windowSetTitle title])
  | ShellSpecificState.WlrLayer _ => ({ s with title := title }, [])

/-- Set the minimum inner window size, src set_min_inner_size. -/
def WindowState.set_min_inner_size (s : WindowState) (size : Option LogicalSize) :
    WindowState × List ProtocolRequest :=
  match s.shell_specific with
  | ShellSpecificState.Xdg xdg =>
    let sz := size.getD MIN_WINDOW_SIZE
    let sz : LogicalSize :=
      { width := max sz.width MIN_WINDOW_SIZE.width,
        height := max sz.height MIN_WINDOW_SIZE.height }
    let sz : LogicalSize :=
      match xdg.frame with
      | some frame =>
        let wh := frame.add_borders sz.width sz.height
        { width := wh.1, height := wh.2 }
      | none => sz
    ({ s with shell_specific := ShellSpecificState.Xdg { xdg with min_inner_size := sz } },
      [ProtocolRequest.setMinSize (some sz)])
  | ShellSpecificState.WlrLayer _ => (s, [])

/-- The window state with the frame callback state of the xdg shell replaced,
used to phrase the frame callback cycle. -/
def WindowState.withFrameCallbackState (s : WindowState) (xdg : XdgState)
    (fcs : FrameCallbackState) : WindowState :=
  { s with shell_specific := ShellSpecificState.Xdg { xdg with frame_callback_state := fcs } }

/-! Concrete states used by the witnesses. -/

def sampleFlags : XdgWindowState :=
  { maximized := false, fullscreen := false, resizing := false, activated := false,
    tiledLeft := false, tiledRight := false, tiledTop := false, tiledBottom := false,
    suspended := false }

def sampleXdg : XdgState :=
  { last_configure := none, resizable := true, frame := none, csd_fails := false,
    decorate := true, min_inner_size := MIN_WINDOW_SIZE, max_inner_size := none,
    stateless_size := ⟨800, 600⟩, frame_callback_state := FrameCallbackState.None,
    has_pending_move := none }

def sampleWindow : WindowState :=
  { pointers := [some 0, none, some 1], cursor_visible := true,
    pointer_constraints := true, shell_specific := ShellSpecificState.Xdg sampleXdg,
    title := [], transparent := false, cursor_grab_mode := GrabState.new,
    size := ⟨800, 600⟩, initial_size := none, viewport := false }

def sampleLayerWindow : WindowState :=
  { sampleWindow with
    shell_specific := ShellSpecificState.WlrLayer none,
    size := ⟨300, 200⟩ }

def sampleFrame : WinitFrame :=
  { borderWidth := 10, borderHeight := 30, location := (0, -30), hidden := false,
    wstate := sampleFlags, title := [] }

def confinedWindow : WindowState :=
  { sampleWindow with cursor_grab_mode :=
      { user_grab_mode := CursorGrabMode.Confined,
        current_grab_mode := CursorGrabMode.Confined } }

def lockedWindow : WindowState :=
  { sampleWindow with cursor_grab_mode :=
      { user_grab_mode := CursorGrabMode.Locked,
        current_grab_mode := CursorGrabMode.Locked } }

def noConstraintsWindow : WindowState :=
  { sampleWindow with pointer_constraints := false }

def oneChar : Char := 'a'

def suspendedConfigure : WindowConfigure :=
  { new_size := (none, none), state := { sampleFlags with suspended := true },
    decoration_mode := DecorationMode.Server, suggested_bounds := none }

def sampleConfigure : WindowConfigure :=
  { new_size := (some 640, some 480), state := sampleFlags,
    decoration_mode := DecorationMode.Server, suggested_bounds := none }

def frameWindow : WindowState :=
  { sampleWindow with
    shell_specific := ShellSpecificState.Xdg { sampleXdg with frame := some sampleFrame } }

def clientBothConfigure : WindowConfigure :=
  { new_size := (some 640, some 480), state := sampleFlags,
    decoration_mode := DecorationMode.Client, suggested_bounds := some (50, 50) }

def failingCreationWindow : WindowState :=
  { sampleWindow with
    shell_specific := ShellSpecificState.Xdg sampleXdg }

def clientConfigure : WindowConfigure :=
  { new_size := (some 640, some 480), state := sampleFlags,
    decoration_mode := DecorationMode.Client, suggested_bounds := none }

/-! Helper lemmas about the embedded operations. -/

theorem nonZeroU32_getD_one (n : Nat) : (nonZeroU32 n).getD 1 = max 1 n := by
  unfold nonZeroU32
  split <;> simp <;> omega

theorem WindowState.resize_state (s : WindowState) (ns : LogicalSize) :
    (s.resize ns).1 =
      match s.shell_specific with
      | ShellSpecificState.Xdg xdg =>
        if xdg.last_configure.map isStateless = some true then
          { s with size := ns, shell_specific :=
              ShellSpecificState.Xdg { xdg with stateless_size := ns } }
        else { s with size := ns }
      | ShellSpecificState.WlrLayer _ => { s with size := ns } := by
  unfold WindowState.resize
  cases hs : s.shell_specific with
  | Xdg xdg => simp only [hs]
  | WlrLayer lc => simp only [hs]

theorem WindowState.resize_size (s : WindowState) (ns : LogicalSize) :
    ((s.resize ns).1).size = ns := by
  rw [WindowState.resize_state]
  cases hs : s.shell_specific with
  | Xdg xdg =>
    simp only [hs]
    split <;> rfl
  | WlrLayer lc => simp only [hs]

theorem WindowState.resize_layer_requests (s : WindowState)
    (lc : Option LayerSurfaceConfigure) (ns : LogicalSize)
    (h : s.shell_specific = ShellSpecificState.WlrLayer lc) :
    (s.resize ns).2 =
      [ProtocolRequest.setOpaqueRegion (!s.transparent),
       ProtocolRequest.setSize ns.width ns.height]
      ++ (if s.viewport then [ProtocolRequest.setViewportDestination ns.width ns.height]
          else []) := by
  unfold WindowState.resize
  simp [h]

theorem xdgFrameStep_last_configure (xdg : XdgState) (t : List Char)
    (c : WindowConfigure) (sub : Bool) (fnew : Option WinitFrame) :
    (xdgFrameStep xdg t c sub fnew).last_configure = xdg.last_configure := by
  unfold xdgFrameStep
  split
  · cases fnew <;> rfl
  · split <;> rfl

theorem xdgNewSize_fst (xdg : XdgState) (cur : LogicalSize) (c : WindowConfigure) :
    (xdgNewSize xdg cur c).1 =
      match xdg.frame with
      | some f => { xdg with frame := some { f with wstate := c.state } }
      | none => xdg := by
  unfold xdgNewSize
  cases hf : xdg.frame <;> rcases hns : c.new_size with ⟨a | a, b | b⟩ <;>
    simp only [hf, hns] <;> first | rfl | (split <;> rfl)

theorem xdgNewSize_last_configure (xdg : XdgState) (cur : LogicalSize)
    (c : WindowConfigure) :
    (xdgNewSize xdg cur c).1.last_configure = xdg.last_configure := by
  rw [xdgNewSize_fst]
  cases xdg.frame <;> rfl

theorem WindowState.xdgState?_eq_some (s : WindowState) (x : XdgState) :
    s.xdgState? = some x ↔ s.shell_specific = ShellSpecificState.Xdg x := by
  unfold WindowState.xdgState?
  cases s.shell_specific <;> simp

theorem xdgOccludedEvents_congr (xdg1 xdg2 : XdgState) (c : WindowConfigure)
    (h : xdg1.last_configure = xdg2.last_configure) :
    xdgOccludedEvents xdg1 c = xdgOccludedEvents xdg2 c := by
  unfold xdgOccludedEvents
  rw [h]

theorem configure_xdg_events (s : WindowState) (xdg : XdgState) (c : WindowConfigure)
    (sub : Bool) (fnew : Option WinitFrame)
    (hshell : s.shell_specific = ShellSpecificState.Xdg xdg) :
    (s.configure_xdg c sub fnew).events = xdgOccludedEvents xdg c := by
  unfold WindowState.configure_xdg
  simp only [hshell]
  cases hi : s.initial_size <;> simp only [hi] <;> split <;>
    exact xdgOccludedEvents_congr _ _ c (by rw [xdgFrameStep_last_configure])

theorem configure_xdg_attempted (s : WindowState) (xdg : XdgState)
    (c : WindowConfigure) (sub : Bool) (fnew : Option WinitFrame)
    (hshell : s.shell_specific = ShellSpecificState.Xdg xdg) :
    (s.configure_xdg c sub fnew).frameCreationAttempted =
      frameCreationAttempt xdg c sub := by
  unfold WindowState.configure_xdg
  simp only [hshell]
  cases hi : s.initial_size <;> simp only [hi] <;> split <;> rfl

theorem frameCreationAttempt_iff (xdg : XdgState) (c : WindowConfigure) (sub : Bool) :
    frameCreationAttempt xdg c sub = true ↔
      sub = true ∧ c.decoration_mode = DecorationMode.Client
        ∧ xdg.frame = none ∧ xdg.csd_fails = false := by
  unfold frameCreationAttempt
  simp [Bool.and_eq_true, Option.isNone_iff_eq_none, Bool.not_eq_true', and_assoc]

theorem configure_xdg_size (s : WindowState) (xdg : XdgState) (c : WindowConfigure)
    (sub : Bool) (fnew : Option WinitFrame)
    (hshell : s.shell_specific = ShellSpecificState.Xdg xdg) :
    (s.configure_xdg c sub fnew).state.size =
      (let xdg1 : XdgState :=
        match s.initial_size with
        | some i => { xdg with stateless_size := i }
        | none => xdg
      let cur : LogicalSize :=
        match s.initial_size with
        | some i => i
        | none => s.size
      let step := xdgNewSize (xdgFrameStep xdg1 s.title c sub fnew) cur c
      xdgConstrainSize step.1.frame c step.2.1 step.2.2) := by
  unfold WindowState.configure_xdg
  simp only [hshell]
  cases hi : s.initial_size <;> simp only [hi] <;> split
  case isTrue h => rw [WindowState.resize_size]
  case isFalse h =>
    rw [not_or, not_not] at h
    exact h.2.symm
  case isTrue h => rw [WindowState.resize_size]
  case isFalse h =>
    rw [not_or, not_not] at h
    exact h.2.symm

theorem xdgNewSize_csd_fails (xdg : XdgState) (cur : LogicalSize) (c : WindowConfigure) :
    (xdgNewSize xdg cur c).1.csd_fails = xdg.csd_fails := by
  rw [xdgNewSize_fst]
  cases xdg.frame <;> rfl

theorem xdgNewSize_frame (xdg : XdgState) (cur : LogicalSize) (c : WindowConfigure) :
    (xdgNewSize xdg cur c).1.frame =
      xdg.frame.map fun f => { f with wstate := c.state } := by
  rw [xdgNewSize_fst]
  cases hf : xdg.frame <;> simp [hf]

theorem xdgFrameStep_stateless_congr (xdg : XdgState) (i : LogicalSize)
    (t : List Char) (c : WindowConfigure) (sub : Bool) (fnew : Option WinitFrame) :
    xdgFrameStep { xdg with stateless_size := i } t c sub fnew =
      { xdgFrameStep xdg t c sub fnew with stateless_size := i } := by
  unfold xdgFrameStep
  have hcond : frameCreationAttempt { xdg with stateless_size := i } c sub
      = frameCreationAttempt xdg c sub := rfl
  rw [hcond]
  by_cases hc : frameCreationAttempt xdg c sub = true
  · rw [if_pos hc, if_pos hc]
    cases fnew <;> rfl
  · rw [if_neg hc, if_neg hc]
    by_cases hdm : c.decoration_mode = DecorationMode.Server
    · rw [if_pos hdm, if_pos hdm]
    · rw [if_neg hdm, if_neg hdm]

theorem configure_xdg_xdgState (s : WindowState) (xdg : XdgState) (c : WindowConfigure)
    (sub : Bool) (fnew : Option WinitFrame)
    (hshell : s.shell_specific = ShellSpecificState.Xdg xdg) :
    ∃ xdg1 : XdgState,
      (s.configure_xdg c sub fnew).state.shell_specific = ShellSpecificState.Xdg xdg1
      ∧ xdg1.csd_fails = (xdgFrameStep xdg s.title c sub fnew).csd_fails
      ∧ xdg1.frame = ((xdgFrameStep xdg s.title c sub fnew).frame.map
          fun f => { f with wstate := c.state })
      ∧ xdg1.last_configure = some c := by
  unfold WindowState.configure_xdg
  simp only [hshell]
  cases hi : s.initial_size with
  | none =>
    simp only
    split
    case isTrue hcond =>
      rw [WindowState.resize_state]
      dsimp only
      split
      case isTrue h2 =>
        exact ⟨_, rfl, by simp [xdgNewSize_csd_fails], by simp [xdgNewSize_frame], rfl⟩
      case isFalse h2 =>
        exact ⟨_, rfl, by simp [xdgNewSize_csd_fails], by simp [xdgNewSize_frame], rfl⟩
    case isFalse hcond =>
      exact ⟨_, rfl, by simp [xdgNewSize_csd_fails], by simp [xdgNewSize_frame], rfl⟩
  | some i =>
    simp only
    split
    case isTrue hcond =>
      rw [WindowState.resize_state]
      dsimp only
      split
      case isTrue h2 =>
        exact ⟨_, rfl,
          by simp [xdgNewSize_csd_fails, xdgFrameStep_stateless_congr],
          by simp [xdgNewSize_frame, xdgFrameStep_stateless_congr], rfl⟩
      case isFalse h2 =>
        exact ⟨_, rfl,
          by simp [xdgNewSize_csd_fails, xdgFrameStep_stateless_congr],
          by simp [xdgNewSize_frame, xdgFrameStep_stateless_congr], rfl⟩
    case isFalse hcond =>
      exact ⟨_, rfl,
        by simp [xdgNewSize_csd_fails, xdgFrameStep_stateless_congr],
        by simp [xdgNewSize_frame, xdgFrameStep_stateless_congr], rfl⟩

theorem configure_xdg_redraw (s : WindowState) (xdg : XdgState) (c : WindowConfigure)
    (sub : Bool) (fnew : Option WinitFrame)
    (hshell : s.shell_specific = ShellSpecificState.Xdg xdg)
    (hinit : s.initial_size = none) :
    ((s.configure_xdg c sub fnew).redraw = true ↔
      xdgStateChangeRequiresResize (xdg.last_configure.map fun c0 => c0.state) c.state = true
        ∨ (s.configure_xdg c sub fnew).state.size ≠ s.size) := by
  rw [configure_xdg_size s xdg c sub fnew hshell]
  unfold WindowState.configure_xdg
  simp only [hshell, hinit]
  rw [xdgNewSize_last_configure, xdgFrameStep_last_configure]
  split
  case isTrue hcond => simpa using hcond
  case isFalse hcond =>
    rw [not_or, not_not] at hcond
    simp only [Bool.false_eq_true, false_iff, not_or, not_not]
    exact hcond

/-! Claim theorems. -/

/-- C1 counterexample: a frame with borders (10, 30) exists when the
configure arrives, the configure supplies both axes as (640, 480) with the
Server decoration mode; the code drops the frame before computing the size
and yields exactly (640, 480), not the supplied size minus the borders of
the frame that existed. -/
theorem configure_xdg_both_axes_c1_counterexample :
    ({ sampleXdg with frame := some sampleFrame } : XdgState).frame = some sampleFrame
    ∧ sampleConfigure.new_size = (some 640, some 480)
    ∧ (frameWindow.configure_xdg sampleConfigure true none).state.size = ⟨640, 480⟩
    ∧ (frameWindow.configure_xdg sampleConfigure true none).state.size ≠
        ⟨max 1 (640 - sampleFrame.borderWidth), max 1 (480 - sampleFrame.borderHeight)⟩ := by
  decide

/-- C1 amended: for every top-level configure where the compositor supplies
both width and height, configure_xdg computes the inner size as the supplied
size minus the borders of the decoration frame in effect after the decoration
step of this same configure, a Server decoration mode having dropped any
existing frame first and a successful Client creation having installed one,
each axis falling back to a minimum of 1, and exactly the supplied size when
no frame is in effect; the suggested bounds, universally quantified here, are
never applied in this both-supplied case. -/
theorem configure_xdg_both_axes_c1 (s : WindowState) (xdg : XdgState)
    (c : WindowConfigure) (sub : Bool) (fnew : Option WinitFrame)
    (w h : Nat) (hshell : s.shell_specific = ShellSpecificState.Xdg xdg)
    (hsize : c.new_size = (some w, some h)) (hw : 0 < w) (hh : 0 < h) :
    (∀ f, (xdgFrameStep xdg s.title c sub fnew).frame = some f →
      (s.configure_xdg c sub fnew).state.size =
        ⟨max 1 (w - f.borderWidth), max 1 (h - f.borderHeight)⟩)
    ∧ ((xdgFrameStep xdg s.title c sub fnew).frame = none →
      (s.configure_xdg c sub fnew).state.size = ⟨w, h⟩) := by
  rw [configure_xdg_size s xdg c sub fnew hshell]
  constructor
  · intro f hf
    cases hi : s.initial_size <;>
      simp [hi, xdgFrameStep_stateless_congr, xdgNewSize, hf, hsize,
        xdgConstrainSize, WinitFrame.subtract_borders, nonZeroU32_getD_one]
  · intro hf
    cases hi : s.initial_size <;>
      simp [hi, xdgFrameStep_stateless_congr, xdgNewSize, hf, hsize,
        xdgConstrainSize]

/-- Witness for the amended C1: both axes supplied as (640, 480), Client
decoration mode keeping the existing frame with borders (10, 30), suggested
bounds (50, 50) present but not applied: the inner size becomes (630, 450). -/
theorem configure_xdg_both_axes_c1_witness :
    (frameWindow.configure_xdg clientBothConfigure true none).state.size =
      ⟨630, 450⟩ := by
  have h := (configure_xdg_both_axes_c1 frameWindow
    { sampleXdg with frame := some sampleFrame } clientBothConfigure true none
    640 480 rfl rfl (by decide) (by decide)).1 sampleFrame (by decide)
  rw [h]
  decide

/-- C2: configure_xdg reports a needed redraw exactly when no prior configure
was stored, or the symmetric difference of the old and new state flags has a
flag outside activated and suspended, or the computed size differs from the
current inner size; hence a second configure with flags identical outside
activated and suspended and an identical resulting size reports false. -/
theorem configure_xdg_redraw_c2 (s : WindowState) (xdg : XdgState)
    (c : WindowConfigure) (sub : Bool) (fnew : Option WinitFrame)
    (hshell : s.shell_specific = ShellSpecificState.Xdg xdg)
    (hinit : s.initial_size = none) :
    ((s.configure_xdg c sub fnew).redraw = true ↔
      (xdg.last_configure = none
        ∨ (∃ c0, xdg.last_configure = some c0 ∧
            ((c0.state.symmetricDifference c.state).differenceActivatedSuspended.isEmpty
              = false))
        ∨ (s.configure_xdg c sub fnew).state.size ≠ s.size))
    ∧ (∀ c0, xdg.last_configure = some c0 →
        ((c0.state.symmetricDifference c.state).differenceActivatedSuspended.isEmpty
          = true) →
        (s.configure_xdg c sub fnew).state.size = s.size →
        (s.configure_xdg c sub fnew).redraw = false) := by
  have hr := configure_xdg_redraw s xdg c sub fnew hshell hinit
  constructor
  · rw [hr]
    unfold xdgStateChangeRequiresResize
    cases hl : xdg.last_configure with
    | none => simp
    | some c0 =>
      simp only [hl, Option.map_some', Option.getD_some, Bool.not_eq_true']
      constructor
      · rintro (hb | hs)
        · exact Or.inr (Or.inl ⟨c0, rfl, hb⟩)
        · exact Or.inr (Or.inr hs)
      · rintro (hnone | ⟨c1, hc1, hb⟩ | hs)
        · cases hnone
        · cases hc1
          exact Or.inl hb
        · exact Or.inr hs
  · intro c0 hl hb hs
    cases hredraw : (s.configure_xdg c sub fnew).redraw
    · rfl
    · exfalso
      rcases hr.mp hredraw with hrr | hns
      · unfold xdgStateChangeRequiresResize at hrr
        rw [hl] at hrr
        simp only [Option.map_some', Option.getD_some, Bool.not_eq_true'] at hrr
        rw [hb] at hrr
        cases hrr
      · exact hns hs

/-- Witness for C2: a second configure identical to the first one reports
that no redraw is needed. -/
theorem configure_xdg_redraw_c2_witness :
    ((sampleWindow.configure_xdg sampleConfigure true none).state.configure_xdg
        sampleConfigure true none).redraw = false :=
  (configure_xdg_redraw_c2
    (sampleWindow.configure_xdg sampleConfigure true none).state
    { sampleXdg with last_configure := some sampleConfigure, stateless_size := ⟨640, 480⟩ }
    sampleConfigure true none (by decide) (by decide)).2 sampleConfigure (by decide)
    (by decide) (by decide)

/-- C3: during configure_xdg an Occluded event is pushed to the event sink
exactly when the suspended flag differs from the previous configure, an
absent previous configure counting as not suspended: Occluded true exactly
once on a false to true transition, Occluded false exactly once on a true to
false transition, and nothing when the suspended value repeats. -/
theorem configure_xdg_occluded_c3 (s : WindowState) (xdg : XdgState)
    (c : WindowConfigure) (sub : Bool) (fnew : Option WinitFrame)
    (hshell : s.shell_specific = ShellSpecificState.Xdg xdg) :
    (((xdg.last_configure.map fun c0 => c0.state.suspended).getD false) = false →
      c.state.suspended = true →
      (s.configure_xdg c sub fnew).events = [WindowEvent.Occluded true])
    ∧ (((xdg.last_configure.map fun c0 => c0.state.suspended).getD false) = true →
      c.state.suspended = false →
      (s.configure_xdg c sub fnew).events = [WindowEvent.Occluded false])
    ∧ (((xdg.last_configure.map fun c0 => c0.state.suspended).getD false)
        = c.state.suspended →
      (s.configure_xdg c sub fnew).events = []) := by
  rw [configure_xdg_events s xdg c sub fnew hshell]
  unfold xdgOccludedEvents
  refine ⟨?_, ?_, ?_⟩
  · intro hp hs
    simp [hp, hs]
  · intro hp hs
    simp [hp, hs]
  · intro hp
    simp [hp]

/-- Witness for C3: a first configure with the suspended flag set, on a
window with no prior configure, pushes exactly one Occluded true event. -/
theorem configure_xdg_occluded_c3_witness :
    (sampleWindow.configure_xdg suspendedConfigure true none).events =
      [WindowEvent.Occluded true] :=
  (configure_xdg_occluded_c3 sampleWindow sampleXdg suspendedConfigure true none
    rfl).1 rfl rfl

/-- C7: decoration frame creation during configure_xdg is attempted exactly
when the subcompositor is available, the decoration mode of the configure is
Client, no frame exists and the sticky csd_fails flag is unset; a creation
failure sets csd_fails and leaves no frame so that no later configure ever
attempts creation again, and the call still returns a normal result rather
than surfacing the failure; a Server decoration mode drops any frame. -/
theorem configure_xdg_frame_policy_c7 (s : WindowState) (xdg : XdgState)
    (c : WindowConfigure) (sub : Bool) (fnew : Option WinitFrame)
    (hshell : s.shell_specific = ShellSpecificState.Xdg xdg) :
    ((s.configure_xdg c sub fnew).frameCreationAttempted = true ↔
      sub = true ∧ c.decoration_mode = DecorationMode.Client
        ∧ xdg.frame = none ∧ xdg.csd_fails = false)
    ∧ (fnew = none → (s.configure_xdg c sub fnew).frameCreationAttempted = true →
        ((s.configure_xdg c sub fnew).state.xdgState?.map XdgState.csd_fails = some true
        ∧ (s.configure_xdg c sub fnew).state.xdgState?.map XdgState.frame = some none
        ∧ ∀ c2 sub2 fnew2,
            ((s.configure_xdg c sub fnew).state.configure_xdg c2 sub2
              fnew2).frameCreationAttempted = false))
    ∧ (c.decoration_mode = DecorationMode.Server →
        (s.configure_xdg c sub fnew).state.xdgState?.map XdgState.frame = some none) := by
  have hatt := configure_xdg_attempted s xdg c sub fnew hshell
  have hiff := frameCreationAttempt_iff xdg c sub
  obtain ⟨xdg1, hx1, hcsd, hframe, hlast⟩ := configure_xdg_xdgState s xdg c sub fnew hshell
  have hxq : (s.configure_xdg c sub fnew).state.xdgState? = some xdg1 :=
    (WindowState.xdgState?_eq_some _ _).mpr hx1
  refine ⟨by rw [hatt]; exact hiff, ?_, ?_⟩
  · intro hfnew hattTrue
    subst hfnew
    have hcond : frameCreationAttempt xdg c sub = true := by
      rw [hatt] at hattTrue
      exact hattTrue
    have hstep : xdgFrameStep xdg s.title c sub none = { xdg with csd_fails := true } := by
      unfold xdgFrameStep
      rw [if_pos hcond]
    have hcf1 : xdg1.csd_fails = true := by
      rw [hcsd, hstep]
    refine ⟨?_, ?_, ?_⟩
    · simp [hxq, hcf1]
    · obtain ⟨hsub, hdm, hf, hcf⟩ := hiff.mp hcond
      simp [hxq, hframe, hstep, hf]
    · intro c2 sub2 fnew2
      rw [configure_xdg_attempted (s.configure_xdg c sub none).state xdg1 c2 sub2 fnew2 hx1]
      cases hb : frameCreationAttempt xdg1 c2 sub2
      · rfl
      · exfalso
        have hfalse := ((frameCreationAttempt_iff xdg1 c2 sub2).mp hb).2.2.2
        rw [hcf1] at hfalse
        cases hfalse
  · intro hdm
    have hcondF : ¬frameCreationAttempt xdg c sub = true := by
      intro hb
      obtain ⟨_, hdm2, _, _⟩ := hiff.mp hb
      rw [hdm] at hdm2
      cases hdm2
    have hstepf : (xdgFrameStep xdg s.title c sub fnew).frame = none := by
      unfold xdgFrameStep
      rw [if_neg hcondF, if_pos hdm]
    simp [hxq, hframe, hstepf]

/-- Witness for C7: a failing frame creation on a client decoration configure
is attempted on the first configure and not retried on an identical second
configure. -/
theorem configure_xdg_frame_policy_c7_witness :
    (failingCreationWindow.configure_xdg clientConfigure true none).frameCreationAttempted
      = true
    ∧ ((failingCreationWindow.configure_xdg clientConfigure true
        none).state.configure_xdg clientConfigure true none).frameCreationAttempted
      = false := by
  have hc7 := configure_xdg_frame_policy_c7 failingCreationWindow sampleXdg
    clientConfigure true none rfl
  have h1 : (failingCreationWindow.configure_xdg clientConfigure true
      none).frameCreationAttempted = true :=
    hc7.1.mpr ⟨rfl, rfl, rfl, rfl⟩
  exact ⟨h1, (hc7.2.1 rfl h1).2.2 clientConfigure true none⟩

/-- C4: for every layer shell configure in the layer shell state,
configure_layer computes the new size by the zero-means-unchanged rule, stores
the configure as the last one, performs the resize (the set-size request for
the computed size is issued), and returns true. -/
theorem configure_layer_c4 (s : WindowState) (lc : Option LayerSurfaceConfigure)
    (c : LayerSurfaceConfigure)
    (hshell : s.shell_specific = ShellSpecificState.WlrLayer lc) :
    (s.configure_layer c).2.2 = true
    ∧ (s.configure_layer c).1.shell_specific = ShellSpecificState.WlrLayer (some c)
    ∧ (c.new_size = (0, 0) → (s.configure_layer c).1.size = s.size)
    ∧ (∀ h0, c.new_size = (0, h0 + 1) →
        (s.configure_layer c).1.size = ⟨s.size.width, h0 + 1⟩)
    ∧ (∀ w0, c.new_size = (w0 + 1, 0) →
        (s.configure_layer c).1.size = ⟨w0 + 1, s.size.height⟩)
    ∧ (∀ w0 h0, c.new_size = (w0 + 1, h0 + 1) →
        (s.configure_layer c).1.size = ⟨w0 + 1, h0 + 1⟩)
    ∧ ProtocolRequest.setSize (s.configure_layer c).1.size.width
        (s.configure_layer c).1.size.height ∈ (s.configure_layer c).2.1 := by
  refine ⟨?_, ?_, ?_, ?_, ?_, ?_, ?_⟩
  · unfold WindowState.configure_layer
    simp only [hshell]
  · unfold WindowState.configure_layer
    simp only [hshell]
    rw [WindowState.resize_state]
  · intro hc
    unfold WindowState.configure_layer
    simp only [hshell, hc, WindowState.resize_size]
  · intro h0 hc
    unfold WindowState.configure_layer
    simp only [hshell, hc, WindowState.resize_size]
  · intro w0 hc
    unfold WindowState.configure_layer
    simp only [hshell, hc, WindowState.resize_size]
  · intro w0 h0 hc
    unfold WindowState.configure_layer
    simp only [hshell, hc, WindowState.resize_size]
  · unfold WindowState.configure_layer
    simp only [hshell, WindowState.resize_size]
    rw [WindowState.resize_layer_requests _ (some c) _ rfl]
    simp

/-- Witness for C4 at a concrete layer state: a configure of (0, 150) on a
window of size (300, 200) keeps the width and returns true. -/
theorem configure_layer_c4_witness :
    (sampleLayerWindow.configure_layer ⟨(0, 150)⟩).2.2 = true
    ∧ (sampleLayerWindow.configure_layer ⟨(0, 150)⟩).1.size = ⟨300, 150⟩ := by
  refine ⟨(configure_layer_c4 sampleLayerWindow none ⟨(0, 150)⟩ rfl).1, ?_⟩
  have h := (configure_layer_c4 sampleLayerWindow none ⟨(0, 150)⟩ rfl).2.2.2.1 149 rfl
  rw [h]
  decide

/-- C5: set_cursor_grab with the pointer constraints collaborator unavailable
returns a NotSupported error for every mode other than None and Ok for None;
with the collaborator present it succeeds, the constraint of the previously
applied grab mode is released on every live pointer before the constraint of
the new mode is applied, and the new mode is recorded as applied. -/
theorem set_cursor_grab_c5 (s : WindowState) (mode : CursorGrabMode) :
    (s.pointer_constraints = false → mode ≠ CursorGrabMode.None →
      (s.set_cursor_grab mode).2.2 = Except.error ExternalError.NotSupported)
    ∧ (s.pointer_constraints = false → mode = CursorGrabMode.None →
      (s.set_cursor_grab mode).2.2 = Except.ok ())
    ∧ (s.pointer_constraints = true →
      (s.set_cursor_grab mode).2.2 = Except.ok ()
      ∧ (s.set_cursor_grab mode).2.1 =
        grabReleaseRequests s.cursor_grab_mode.current_grab_mode s.livePointers
          ++ grabApplyRequests mode s.livePointers
      ∧ (s.set_cursor_grab mode).1.cursor_grab_mode.current_grab_mode = mode) := by
  refine ⟨?_, ?_, ?_⟩
  · intro hpc hmode
    unfold WindowState.set_cursor_grab WindowState.set_cursor_grab_inner
    simp [hpc, hmode]
  · intro hpc hmode
    unfold WindowState.set_cursor_grab WindowState.set_cursor_grab_inner
    simp [hpc, hmode]
  · intro hpc
    unfold WindowState.set_cursor_grab WindowState.set_cursor_grab_inner
    simp [hpc, WindowState.livePointers]

/-- Witness for C5: from an applied Confined grab with two live pointers,
requesting Locked first unconfines both pointers, then locks both. -/
theorem set_cursor_grab_c5_witness :
    (confinedWindow.set_cursor_grab CursorGrabMode.Locked).2.1 =
      [ProtocolRequest.unconfinePointer 0, ProtocolRequest.unconfinePointer 1,
       ProtocolRequest.lockPointer 0, ProtocolRequest.lockPointer 1] := by
  have h := (set_cursor_grab_c5 confinedWindow CursorGrabMode.Locked).2.2 rfl
  rw [h.2.1]
  rfl

/-- C6 counterexample: with the pointer constraints collaborator unavailable
and the applied grab mode not Locked, set_cursor_position fails with
NotSupported instead of the OS invalid-operation error named by the claim. -/
theorem set_cursor_position_c6_counterexample :
    noConstraintsWindow.cursor_grab_mode.current_grab_mode ≠ CursorGrabMode.Locked
    ∧ (noConstraintsWindow.set_cursor_position 0 0).2 ≠
        Except.error (ExternalError.Os invalidCursorPositionMessage)
    ∧ (noConstraintsWindow.set_cursor_position 0 0).2 =
        Except.error ExternalError.NotSupported := by
  refine ⟨by decide, ?_, rfl⟩
  intro h
  rw [show (noConstraintsWindow.set_cursor_position 0 0).2 =
      Except.error ExternalError.NotSupported from rfl] at h
  simp at h

/-- C6 amended: set_cursor_position returns NotSupported when the pointer
constraints collaborator is unavailable; with the collaborator available it
returns the OS invalid-operation error exactly when the applied grab mode is
not Locked, and when the applied mode is Locked it succeeds, forwarding the
position to every live pointer, reading only stored state. -/
theorem set_cursor_position_c6 (s : WindowState) (x y : Rat) :
    (s.pointer_constraints = false →
      (s.set_cursor_position x y).2 = Except.error ExternalError.NotSupported)
    ∧ (s.pointer_constraints = true →
        s.cursor_grab_mode.current_grab_mode ≠ CursorGrabMode.Locked →
      (s.set_cursor_position x y).2 =
        Except.error (ExternalError.Os invalidCursorPositionMessage))
    ∧ (s.pointer_constraints = true →
        s.cursor_grab_mode.current_grab_mode = CursorGrabMode.Locked →
      (s.set_cursor_position x y) =
        (s.livePointers.map fun p => ProtocolRequest.setLockedCursorPosition p x y,
          Except.ok ())) := by
  refine ⟨?_, ?_, ?_⟩
  · intro hpc
    unfold WindowState.set_cursor_position
    simp [hpc]
  · intro hpc hmode
    unfold WindowState.set_cursor_position
    simp [hpc, hmode]
  · intro hpc hmode
    unfold WindowState.set_cursor_position
    simp [hpc, hmode]

/-- Witness for the amended C6: with the collaborator available and the
applied mode Locked, the position is forwarded to both live pointers. -/
theorem set_cursor_position_c6_witness :
    (lockedWindow.set_cursor_position 5 7) =
      ([ProtocolRequest.setLockedCursorPosition 0 5 7,
        ProtocolRequest.setLockedCursorPosition 1 5 7], Except.ok ()) := by
  have h := (set_cursor_position_c6 lockedWindow 5 7).2.2 rfl rfl
  rw [h]
  rfl

/-- C8: the frame callback state machine follows the linear cycle: the
request operation moves None or Received to Requested and issues exactly one
frame request, and is a no-op with no request while already Requested, so at
most one callback is outstanding; the received operation moves the state to
Received and the reset operation moves it to None. -/
theorem frame_callback_c8 (s : WindowState) (xdg : XdgState)
    (hshell : s.shell_specific = ShellSpecificState.Xdg xdg) :
    ((xdg.frame_callback_state = FrameCallbackState.None ∨
      xdg.frame_callback_state = FrameCallbackState.Received) →
      s.request_frame_callback =
        (s.withFrameCallbackState xdg FrameCallbackState.Requested,
          [ProtocolRequest.surfaceFrameRequest]))
    ∧ (xdg.frame_callback_state = FrameCallbackState.Requested →
      s.request_frame_callback = (s, []))
    ∧ s.frame_callback_received = s.withFrameCallbackState xdg FrameCallbackState.Received
    ∧ s.frame_callback_reset = s.withFrameCallbackState xdg FrameCallbackState.None := by
  refine ⟨?_, ?_, ?_, ?_⟩
  · intro hfcs
    unfold WindowState.request_frame_callback WindowState.withFrameCallbackState
    rcases hfcs with h | h <;> simp [hshell, h]
  · intro hfcs
    unfold WindowState.request_frame_callback
    simp [hshell, hfcs]
  · unfold WindowState.frame_callback_received WindowState.withFrameCallbackState
    simp [hshell]
  · unfold WindowState.frame_callback_reset WindowState.withFrameCallbackState
    simp [hshell]

/-- Witness for C8: requesting a frame callback twice from the None state
issues exactly one frame request, the second call being a no-op. -/
theorem frame_callback_c8_witness :
    ((sampleWindow.request_frame_callback).1.request_frame_callback).2 = [] := by
  have h1 := (frame_callback_c8 sampleWindow sampleXdg rfl).1 (Or.inl rfl)
  rw [h1]
  have h2 := (frame_callback_c8
    (sampleWindow.withFrameCallbackState sampleXdg FrameCallbackState.Requested)
    { sampleXdg with frame_callback_state := FrameCallbackState.Requested } rfl).2.1 rfl
  simp only []
  rw [h2]

/-- C10: set_min_inner_size stores and forwards a minimum inner size clamped
to at least width 2 and height 1 from MIN_WINDOW_SIZE, also when the caller
passes none or a smaller size; when a frame exists its borders are added on
top of the clamped size. -/
theorem set_min_inner_size_c10 (s : WindowState) (xdg : XdgState)
    (size : Option LogicalSize)
    (hshell : s.shell_specific = ShellSpecificState.Xdg xdg) :
    ∃ stored : LogicalSize,
      (s.set_min_inner_size size).1.xdgState? =
        some ({ xdg with min_inner_size := stored })
      ∧ (s.set_min_inner_size size).2 = [ProtocolRequest.setMinSize (some stored)]
      ∧ 2 ≤ stored.width ∧ 1 ≤ stored.height
      ∧ stored =
          (match xdg.frame with
           | some f =>
             { width := max (size.getD MIN_WINDOW_SIZE).width 2 + f.borderWidth,
               height := max (size.getD MIN_WINDOW_SIZE).height 1 + f.borderHeight }
           | none =>
             { width := max (size.getD MIN_WINDOW_SIZE).width 2,
               height := max (size.getD MIN_WINDOW_SIZE).height 1 }) := by
  unfold WindowState.set_min_inner_size
  cases hf : xdg.frame with
  | some f =>
    refine ⟨⟨max (size.getD MIN_WINDOW_SIZE).width 2 + f.borderWidth,
             max (size.getD MIN_WINDOW_SIZE).height 1 + f.borderHeight⟩,
      ?_, ?_, ?_, ?_, ?_⟩ <;>
      simp [hshell, hf, WindowState.xdgState?, WinitFrame.add_borders, MIN_WINDOW_SIZE] <;>
      omega
  | none =>
    refine ⟨⟨max (size.getD MIN_WINDOW_SIZE).width 2,
             max (size.getD MIN_WINDOW_SIZE).height 1⟩, ?_, ?_, ?_, ?_, ?_⟩ <;>
      simp [hshell, hf, WindowState.xdgState?, MIN_WINDOW_SIZE] <;>
      omega

/-- Witness for C10: a requested minimum of (1, 0) is forwarded clamped to
the hard minimum (2, 1). -/
theorem set_min_inner_size_c10_witness :
    (sampleWindow.set_min_inner_size (some ⟨1, 0⟩)).2 =
      [ProtocolRequest.setMinSize (some ⟨2, 1⟩)] := by
  obtain ⟨stored, h1, h2, h3, h4, h5⟩ :=
    set_min_inner_size_c10 sampleWindow sampleXdg (some ⟨1, 0⟩) rfl
  rw [h2, h5]
  rfl

/-! Lemmas on the utf8 byte arithmetic behind set_title. -/

theorem isCharBoundary_zero (cs : List Char) : isCharBoundary cs 0 = true := by
  cases cs <;> rfl

theorem isCharBoundary_iff (cs : List Char) (i : Nat) :
    isCharBoundary cs i = true ↔ ∃ k, k ≤ cs.length ∧ utf8Len (cs.take k) = i := by
  induction cs generalizing i with
  | nil =>
    cases i with
    | zero =>
      simp only [isCharBoundary, List.length_nil, true_iff]
      exact ⟨0, Nat.le_refl 0, rfl⟩
    | succ j => simp [isCharBoundary, utf8Len]
  | cons c rest ih =>
    cases i with
    | zero =>
      simp only [isCharBoundary, true_iff]
      exact ⟨0, Nat.zero_le _, rfl⟩
    | succ j =>
      rw [show isCharBoundary (c :: rest) (j + 1) =
        (if c.utf8Size ≤ j + 1 then isCharBoundary rest (j + 1 - c.utf8Size)
         else false) from rfl]
      by_cases hle : c.utf8Size ≤ j + 1
      · rw [if_pos hle, ih]
        constructor
        · rintro ⟨k, hk, heq⟩
          refine ⟨k + 1, by simpa using hk, ?_⟩
          simp only [List.take_succ_cons, utf8Len]
          omega
        · rintro ⟨k, hk, heq⟩
          cases k with
          | zero => simp [utf8Len] at heq
          | succ k2 =>
            simp only [List.take_succ_cons, utf8Len] at heq
            exact ⟨k2, by simpa using hk, by omega⟩
      · rw [if_neg hle]
        simp only [Bool.false_eq_true, false_iff]
        rintro ⟨k, hk, heq⟩
        cases k with
        | zero => simp [utf8Len] at heq
        | succ k2 =>
          simp only [List.take_succ_cons, utf8Len] at heq
          omega

theorem findCharBoundaryDown_spec (cs : List Char) (n : Nat) :
    isCharBoundary cs (findCharBoundaryDown cs n) = true
    ∧ findCharBoundaryDown cs n ≤ n
    ∧ ∀ m, m ≤ n → isCharBoundary cs m = true → m ≤ findCharBoundaryDown cs n := by
  induction n with
  | zero =>
    refine ⟨isCharBoundary_zero cs, Nat.le_refl 0, ?_⟩
    intro m hm _
    exact hm
  | succ n ih =>
    rw [show findCharBoundaryDown cs (n + 1) =
      (if isCharBoundary cs (n + 1) then n + 1 else findCharBoundaryDown cs n) from rfl]
    by_cases hb : isCharBoundary cs (n + 1) = true
    · rw [if_pos hb]
      exact ⟨hb, Nat.le_refl _, fun m hm _ => hm⟩
    · rw [if_neg hb]
      refine ⟨ih.1, Nat.le_succ_of_le ih.2.1, ?_⟩
      intro m hm hbm
      have hmn : m ≤ n := by
        rcases Nat.eq_or_lt_of_le hm with he | hl
        · exact absurd (he ▸ hbm) hb
        · omega
      exact ih.2.2 m hmn hbm

theorem truncateBytes_utf8Len_take (cs : List Char) (k : Nat) (hk : k ≤ cs.length) :
    truncateBytes cs (utf8Len (cs.take k)) = cs.take k := by
  induction cs generalizing k with
  | nil => simp [truncateBytes]
  | cons c rest ih =>
    cases k with
    | zero =>
      simp only [List.take_zero, utf8Len]
      rw [show truncateBytes (c :: rest) 0 =
        (if c.utf8Size ≤ 0 then c :: truncateBytes rest (0 - c.utf8Size) else [])
        from rfl]
      rw [if_neg (by have := Char.utf8Size_pos c; omega)]
    | succ k2 =>
      simp only [List.take_succ_cons, utf8Len]
      rw [show truncateBytes (c :: rest) (c.utf8Size + utf8Len (rest.take k2)) =
        (if c.utf8Size ≤ c.utf8Size + utf8Len (rest.take k2) then
          c :: truncateBytes rest (c.utf8Size + utf8Len (rest.take k2) - c.utf8Size)
         else []) from rfl]
      rw [if_pos (Nat.le_add_right _ _), Nat.add_sub_cancel_left,
        ih k2 (by simpa using hk)]

theorem utf8Len_take_lt (cs : List Char) (k j : Nat) (hkj : k < j) (hj : j ≤ cs.length) :
    utf8Len (cs.take k) < utf8Len (cs.take j) := by
  induction cs generalizing k j with
  | nil =>
    simp only [List.length_nil] at hj
    omega
  | cons c rest ih =>
    cases j with
    | zero => omega
    | succ j2 =>
      cases k with
      | zero =>
        simp only [List.take_zero, List.take_succ_cons, utf8Len]
        have := Char.utf8Size_pos c
        omega
      | succ k2 =>
        simp only [List.take_succ_cons, utf8Len]
        have := ih k2 j2 (by omega) (by simpa using hj)
        omega

theorem truncateTitle_spec (title : List Char) :
    utf8Len (truncateTitle title) ≤ 1024
    ∧ (utf8Len title ≤ 1024 → truncateTitle title = title)
    ∧ (1024 < utf8Len title →
        ∃ k, k ≤ title.length ∧ truncateTitle title = title.take k
          ∧ ∀ j, utf8Len (title.take j) ≤ 1024 → j ≤ k) := by
  by_cases hlen : 1024 < utf8Len title
  · have hnb := findCharBoundaryDown_spec title 1024
    obtain ⟨k, hk, hkeq⟩ :=
      (isCharBoundary_iff title (findCharBoundaryDown title 1024)).mp hnb.1
    have htr : truncateTitle title = title.take k := by
      unfold truncateTitle
      rw [if_pos hlen, ← hkeq, truncateBytes_utf8Len_take title k hk]
    have hmax : ∀ j, utf8Len (title.take j) ≤ 1024 → j ≤ k := by
      intro j hj
      by_contra hjk
      push_neg at hjk
      have hjlen : j ≤ title.length := by
        by_contra hjl
        push_neg at hjl
        rw [List.take_of_length_le (Nat.le_of_lt hjl)] at hj
        omega
      have hlt : utf8Len (title.take k) < utf8Len (title.take j) :=
        utf8Len_take_lt title k j hjk hjlen
      have hbj : isCharBoundary title (utf8Len (title.take j)) = true :=
        (isCharBoundary_iff title _).mpr ⟨j, hjlen, rfl⟩
      have hle := hnb.2.2 _ hj hbj
      omega
    refine ⟨?_, fun h => absurd hlen (by omega), fun _ => ⟨k, hk, htr, hmax⟩⟩
    rw [htr, hkeq]
    exact hnb.2.1
  · push_neg at hlen
    unfold truncateTitle
    rw [if_neg (by omega)]
    exact ⟨hlen, fun _ => rfl, fun h => absurd h (by omega)⟩

theorem set_title_title (s : WindowState) (title : List Char) :
    (s.set_title title).1.title = truncateTitle title := by
  unfold WindowState.set_title
  cases hs : s.shell_specific with
  | Xdg xdg => cases hf : xdg.frame <;> simp [hs, hf]
  | WlrLayer lc => simp [hs]

/-- C9: set_title stores, and forwards to the shell and to any decoration
frame, a title of at most 1024 bytes: a title over 1024 bytes is cut to the
longest character prefix fitting in 1024 bytes, which is the greatest utf8
character boundary not exceeding byte 1024, while a title of at most 1024
bytes is kept unchanged. -/
theorem set_title_c9 (s : WindowState) (title : List Char) :
    utf8Len (s.set_title title).1.title ≤ 1024
    ∧ (utf8Len title ≤ 1024 → (s.set_title title).1.title = title)
    ∧ (1024 < utf8Len title →
        ∃ k, k ≤ title.length ∧ (s.set_title title).1.title = title.take k
          ∧ ∀ j, utf8Len (title.take j) ≤ 1024 → j ≤ k)
    ∧ (∀ xdg, s.shell_specific = ShellSpecificState.Xdg xdg →
        ProtocolRequest.windowSetTitle (s.set_title title).1.title
          ∈ (s.set_title title).2
        ∧ ∀ f, xdg.frame = some f →
            ProtocolRequest.frameSetTitle (s.set_title title).1.title
              ∈ (s.set_title title).2) := by
  have ht := set_title_title s title
  have hspec := truncateTitle_spec title
  refine ⟨?_, ?_, ?_, ?_⟩
  · rw [ht]
    exact hspec.1
  · intro h
    rw [ht]
    exact hspec.2.1 h
  · intro h
    rw [ht]
    exact hspec.2.2 h
  · intro xdg hs
    rw [ht]
    constructor
    · unfold WindowState.set_title
      cases hf : xdg.frame <;> simp [hs, hf]
    · intro f hf
      unfold WindowState.set_title
      simp [hs, hf]

/-- Witness for C9: a one character title fits in 1024 bytes and is stored
unchanged. -/
theorem set_title_c9_witness :
    (sampleWindow.set_title [oneChar]).1.title = [oneChar] :=
  (set_title_c9 sampleWindow [oneChar]).2.1 (by decide)

end WaylandWindow
